import Mathlib

/-!
Shallow embedding of the GMK87 keyboard display driver (reference.py) and
proofs about its command protocol, configuration store and frame encoder.

Byte buffers on the wire are modelled as `List Nat` (one entry per byte);
the Python configuration list is modelled as `List Int`, because a Python
list can hold arbitrary integers.  Python's bit operations on non-negative
integers are rendered arithmetically: `x & 0xff` is `x % 256`,
`(x >> 8) & 0xff` is `x / 256 % 256`, `(x >> 16) & 0xff` is
`x / 65536 % 256`.  Every command handed to the USB layer is recorded as a
`Cmd` value (command id, payload, offset), so protocol sequences become
lists of `Cmd`.
-/

namespace GMK87

/-- Display width in pixels (source constant DISPLAY_WIDTH). -/
def DISPLAY_WIDTH : Nat := 240

/-- Display height in pixels (source constant DISPLAY_HEIGHT). -/
def DISPLAY_HEIGHT : Nat := 135

/-- Offset of the clock bytes in the configuration blob (DATE_OFFSET). -/
def DATE_OFFSET : Nat := 35

/-- Offset of the animation delay in the configuration blob (DELAY_OFFSET). -/
def DELAY_OFFSET : Nat := 43

/-- Offset of the first slot frame counter (FRAMES_1_OFFSET). -/
def FRAMES_1_OFFSET : Nat := 34

/-- Offset of the second slot frame counter (FRAMES_2_OFFSET). -/
def FRAMES_2_OFFSET : Nat := 46

/-- One issued command as seen by the USB layer: command id, payload bytes
and 24-bit offset.  The payload element type is a parameter because the
upload path sends `Nat` bytes while the configuration path sends entries of
the Python configuration list, modelled as `Int`. -/
structure Cmd (α : Type) where
  id : Nat
  data : List α
  pos : Nat
  deriving Repr, DecidableEq, Inhabited

/-- Validation at the top of Keyboard.send_command: the command id must be
in 1..255 and the payload at most 56 bytes, otherwise ValueError. -/
def send_command_ok (command_id : Nat) (data : List Nat) : Bool :=
  decide (0 < command_id) && decide (command_id ≤ 0xff) && decide (data.length ≤ 56)

/-- The 64-byte request buffer of Keyboard.send_command before the checksum
bytes are written: buffer[0]=0x04, buffer[3]=command id, buffer[4]=payload
length, buffer[5..7]=offset little-endian, buffer[8:8+len]=payload. -/
def frame_before_checksum (command_id : Nat) (data : List Nat) (pos : Nat) : List Nat :=
  let buffer := List.replicate 64 0
  let buffer := buffer.set 0 0x04
  let buffer := buffer.set 3 command_id
  let buffer := buffer.set 4 data.length
  let buffer := buffer.set 5 (pos % 256)
  let buffer := buffer.set 6 (pos / 256 % 256)
  let buffer := buffer.set 7 (pos / 65536 % 256)
  buffer.take 8 ++ data ++ buffer.drop (8 + data.length)

/-- The complete 64-byte request frame of Keyboard.send_command: the
checksum is sum(buffer[3:]) and is stored little-endian at bytes 1-2
(buffer[1] = checksum & 0xff, buffer[2] = (checksum >> 8) & 0xff). -/
def send_command_frame (command_id : Nat) (data : List Nat) (pos : Nat) : List Nat :=
  let buffer := frame_before_checksum command_id data pos
  let checksum := (buffer.drop 3).sum
  (buffer.set 1 (checksum % 256)).set 2 (checksum / 256 % 256)

/-- Abbreviation for the checksum value sum(buffer[3:]) of a request frame. -/
def frame_checksum (c : Nat) (data : List Nat) (pos : Nat) : Nat :=
  c + data.length + pos % 256 + pos / 256 % 256 + pos / 65536 % 256 + data.sum

/-- The byte layout asserted by the spec for a request frame: marker byte,
command id, payload length, little-endian offset, payload, zero padding,
and the little-endian 16-bit checksum over bytes 3..63 at bytes 1-2. -/
def RequestFrameLayout (c : Nat) (p : List Nat) (o : Nat) : Prop :=
  send_command_ok c p = true ∧
  (send_command_frame c p o).length = 64 ∧
  (send_command_frame c p o)[0]! = 0x04 ∧
  (send_command_frame c p o)[3]! = c ∧
  (send_command_frame c p o)[4]! = p.length ∧
  (send_command_frame c p o)[5]! + 256 * (send_command_frame c p o)[6]! +
      65536 * (send_command_frame c p o)[7]! = o ∧
  (∀ i, i < p.length → (send_command_frame c p o)[8 + i]! = p[i]!) ∧
  (∀ j, 8 + p.length ≤ j → j < 64 → (send_command_frame c p o)[j]! = 0) ∧
  (send_command_frame c p o)[1]! + 256 * (send_command_frame c p o)[2]! =
    ((send_command_frame c p o).drop 3).sum % 65536

/-- Padded buffer size computed in Keyboard.encode_frame:
(DISPLAY_WIDTH * DISPLAY_HEIGHT * 2 + 0x7fff) & ~0x7fff; on non-negative
integers Python's & ~0x7fff clears the low 15 bits, i.e. rounds down to a
multiple of 0x8000. -/
def frame_size : Nat := (DISPLAY_WIDTH * DISPLAY_HEIGHT * 2 + 0x7fff) / 0x8000 * 0x8000

/-- RGB565 value computed in the loop body of Keyboard.encode_frame:
r = (pixel[0] >> 3) & 0x1F, g = (pixel[1] >> 2) & 0x3F,
b = (pixel[2] >> 3) & 0x1F, val = (r << 11) | (g << 5) | b. -/
def rgb565 (pixel : Nat × Nat × Nat) : Nat :=
  let r := (pixel.1 >>> 3) &&& 0x1F
  let g := (pixel.2.1 >>> 2) &&& 0x3F
  let b := (pixel.2.2 >>> 3) &&& 0x1F
  (r <<< 11) ||| (g <<< 5) ||| b

/-- The write loop of Keyboard.encode_frame: for each pixel, the high byte
of its RGB565 value goes to index idx*2 and the low byte to idx*2+1. -/
def encode_loop (buffer : List Nat) (pixels : List (Nat × Nat × Nat)) (idx : Nat) :
    List Nat :=
  match pixels with
  | [] => buffer
  | pixel :: rest =>
    let val := rgb565 pixel
    encode_loop
      ((buffer.set (idx * 2) ((val >>> 8) &&& 0xff)).set (idx * 2 + 1) (val &&& 0xff))
      rest (idx + 1)

/-- Keyboard.encode_frame: a zero buffer of frame_size bytes filled with
the big-endian RGB565 encodings of the pixels, enumerated from index 0. -/
def encode_frame (frame : List (Nat × Nat × Nat)) : List Nat :=
  encode_loop (List.replicate frame_size 0) frame 0

/-- The byte pair stream produced by the encode loop, two bytes per pixel. -/
def encode_bytes : List (Nat × Nat × Nat) → List Nat
  | [] => []
  | pixel :: rest =>
    ((rgb565 pixel >>> 8) &&& 0xff) :: (rgb565 pixel &&& 0xff) :: encode_bytes rest

/-- The encoded-buffer layout asserted by the spec: length rounded up to
the next 32 KiB boundary, big-endian RGB565 bytes for every pixel, zero
padding after byte 2*(number of pixels). -/
def EncodedFrameLayout (frame : List (Nat × Nat × Nat)) : Prop :=
  (encode_frame frame).length =
    (DISPLAY_WIDTH * DISPLAY_HEIGHT * 2 + 0x8000 - 1) / 0x8000 * 0x8000 ∧
  (encode_frame frame).length % 0x8000 = 0 ∧
  (∀ i, i < frame.length →
    (encode_frame frame)[2 * i]! =
      ((frame[i]!.1 >>> 3) <<< 11 ||| (frame[i]!.2.1 >>> 2) <<< 5 ||| frame[i]!.2.2 >>> 3)
        / 256 ∧
    (encode_frame frame)[2 * i + 1]! =
      ((frame[i]!.1 >>> 3) <<< 11 ||| (frame[i]!.2.1 >>> 2) <<< 5 ||| frame[i]!.2.2 >>> 3)
        % 256) ∧
  (∀ j, 2 * frame.length ≤ j → j < (encode_frame frame).length →
    (encode_frame frame)[j]! = 0)

/-- The chunking while-loop of Keyboard.upload_frames: while pos < total,
send min(56, total-pos) bytes as command 0x21 at offset pos. -/
def chunk_loop (data : List Nat) (pos : Nat) : List (Cmd Nat) :=
  if h : pos < data.length then
    let size := min 56 (data.length - pos)
    ⟨0x21, (data.drop pos).take size, pos⟩ :: chunk_loop data (pos + size)
  else []
termination_by data.length - pos
decreasing_by
  omega

/-- Keyboard.upload_frames as a command trace: encode every frame of the
first animation, then every frame of the second, concatenate, send 0x23
and 1, stream the chunks, then send 2. -/
def upload_frames (first second : List (List (Nat × Nat × Nat))) : List (Cmd Nat) :=
  let data := (first.map encode_frame).flatten ++ (second.map encode_frame).flatten
  [⟨0x23, [], 0⟩, ⟨1, [], 0⟩] ++ chunk_loop data 0 ++ [⟨2, [], 0⟩]

/-- The upload trace asserted by the spec: one continuous byte stream of
(nA+nB)*65536 bytes, chunked into ceil(len/56) pieces of 56 bytes (the
last possibly shorter), each sent as command 0x21 at the chunk's absolute
stream offset, bracketed by 0x23 and 1 before and 2 after. -/
def UploadTraceLayout (first second : List (List (Nat × Nat × Nat))) : Prop :=
  let data := (first.map encode_frame).flatten ++ (second.map encode_frame).flatten
  let chunks := chunk_loop data 0
  data.length = (first.length + second.length) * 65536 ∧
  upload_frames first second = [⟨0x23, [], 0⟩, ⟨1, [], 0⟩] ++ chunks ++ [⟨2, [], 0⟩] ∧
  chunks.length = (data.length + 55) / 56 ∧
  (∀ k, k < chunks.length →
    (chunks[k]!).id = 0x21 ∧
    (chunks[k]!).pos = 56 * k ∧
    (chunks[k]!).data = (data.drop (56 * k)).take 56 ∧
    ((chunks[k]!).data).length = min 56 (data.length - 56 * k) ∧
    (k + 1 < chunks.length → ((chunks[k]!).data).length = 56)) ∧
  (0 < data.length →
    ((chunks[chunks.length - 1]!).data).length =
      if data.length % 56 = 0 then 56 else data.length % 56)

/-- In-memory state of the Keyboard object: the configuration list
self.config (a Python list of integers) and the dirty flag
self.config_needs_update. -/
structure KbState where
  config : List Int
  config_needs_update : Bool
  deriving Repr, DecidableEq, Inhabited

/-- Keyboard.load_config as a command trace plus the resulting state.  The
device is modelled by an oracle resp giving the raw frame usb.read returns
for the k-th request/response exchange of the sequence (usb.read is called
with size 8); send_command returns response[4:].  The source issues
command 1, nine 4-byte zero probes (id 3) at offsets 0,4,...,32, a 1-byte
zero probe at offset 36, command 2, then twelve 4-byte zero reads (id 5)
at offsets 0,4,...,44 whose responses are concatenated into self.config,
and clears the dirty flag. -/
def load_config (resp : Nat → List Int) : KbState × List (Cmd Int) :=
  let probe_trace : List (Cmd Int) :=
    [⟨1, [], 0⟩] ++ (List.range 9).map (fun i => ⟨3, List.replicate 4 0, i * 4⟩) ++
      [⟨3, [0], 36⟩, ⟨2, [], 0⟩]
  let read_trace : List (Cmd Int) :=
    (List.range 12).map (fun i => ⟨5, List.replicate 4 0, i * 4⟩)
  let buffer := (List.range 12).foldl (fun buf i => buf ++ (resp (12 + i)).drop 4) []
  (⟨buffer, false⟩, probe_trace ++ read_trace)

/-- Keyboard.update_config: a no-op unless the dirty flag is set,
otherwise command 1, command 6 carrying the whole configuration list,
command 2, and the dirty flag is cleared. -/
def update_config (s : KbState) : KbState × List (Cmd Int) :=
  if s.config_needs_update = false then (s, [])
  else
    ({ s with config_needs_update := false },
      [⟨1, [], 0⟩, ⟨6, s.config, 0⟩, ⟨2, [], 0⟩])

/-- Keyboard._int_to_bcd: ValueError unless 0 <= n <= 99, otherwise
(n // 10) << 4 | (n % 10). -/
def _int_to_bcd (n : Int) : Except String Nat :=
  if ¬(0 ≤ n ∧ n ≤ 99) then
    Except.error "Input for BCD conversion must be between 0 and 99"
  else
    Except.ok ((n.toNat / 10) <<< 4 ||| n.toNat % 10)

/-- Keyboard.set_datetime with the components of datetime.now() passed
explicitly: BCD seconds, minutes, hours at offsets 35-37, the ISO weekday
verbatim at 38, BCD day, month, year-2000 at 39-41; marks the store
dirty.  The source assumes a loaded configuration (it loads lazily when
self.config is empty); the model takes the loaded state as input. -/
def set_datetime (second minute hour weekday day month year2000 : Int)
    (s : KbState) : Except String KbState := do
  let b0 ← _int_to_bcd second
  let b1 ← _int_to_bcd minute
  let b2 ← _int_to_bcd hour
  let b4 ← _int_to_bcd day
  let b5 ← _int_to_bcd month
  let b6 ← _int_to_bcd year2000
  Except.ok
    ⟨((((((s.config.set DATE_OFFSET (b0 : Int)).set (DATE_OFFSET + 1) (b1 : Int)).set
        (DATE_OFFSET + 2) (b2 : Int)).set (DATE_OFFSET + 3) weekday).set
        (DATE_OFFSET + 4) (b4 : Int)).set (DATE_OFFSET + 5) (b5 : Int)).set
        (DATE_OFFSET + 6) (b6 : Int),
      true⟩

/-- Keyboard.set_animation_delay: clamp ms into [60, 0xffff] via
max(60, min(ms, 0xffff)), store little-endian at offsets 43-44, mark
dirty.  On the clamped non-negative value, ms & 0xff is ms % 256 and
(ms >> 8) & 0xff is ms / 256 % 256. -/
def set_animation_delay (ms : Int) (s : KbState) : KbState :=
  let ms := max 60 (min ms 0xffff)
  ⟨(s.config.set DELAY_OFFSET (ms % 256)).set (DELAY_OFFSET + 1) (ms / 256 % 256), true⟩

/-- Keyboard.set_frame_count: store both counters verbatim at offsets 34
and 46 (a Python list accepts any integer; no validation is performed),
mark dirty. -/
def set_frame_count (first_count second_count : Int) (s : KbState) : KbState :=
  ⟨(s.config.set FRAMES_1_OFFSET first_count).set FRAMES_2_OFFSET second_count, true⟩

/-- Outcome of one usb.read call in the receive loop of
Keyboard.send_command: either the 50-second timeout expires (pyusb raises,
which surfaces out of send_command), or a frame arrives. -/
inductive ReadResult where
  | timeout
  | frame (bytes : List Nat)
  deriving Repr, DecidableEq, Inhabited

/-- A read result stops the receive loop: a timeout surfaces as a failure,
a frame whose first three bytes echo the request header is returned. -/
def recv_stop (sent : List Nat) (r : ReadResult) : Bool :=
  match r with
  | .timeout => true
  | .frame bytes => bytes.take 3 == sent.take 3

/-- The receive loop of Keyboard.send_command, with the reads supplied by
an environment env (the k-th read of this loop returns env k) and an
explicit iteration budget: none means the budget ran out with the loop
still spinning, some (error ()) is a surfaced DeviceTimeout, some
(ok payload) is response[4:] of the first frame echoing the request
header; non-matching frames are discarded silently. -/
def recv_loop (sent : List Nat) (env : Nat → ReadResult) (k fuel : Nat) :
    Option (Except Unit (List Nat)) :=
  match fuel with
  | 0 => none
  | fuel + 1 =>
    match env k with
    | .timeout => some (Except.error ())
    | .frame bytes =>
      if bytes.take 3 == sent.take 3 then some (Except.ok (bytes.drop 4))
      else recv_loop sent env (k + 1) fuel

/-- Termination behaviour of the receive loop asserted by the spec: some
finite budget suffices from the first read, and a timeout on any read
surfaces a failure immediately, with no further iteration. -/
def RecvLoopTerminates (sent : List Nat) (env : Nat → ReadResult) : Prop :=
  (∃ fuel r, recv_loop sent env 0 fuel = some r) ∧
  (∀ k fuel, env k = ReadResult.timeout →
    recv_loop sent env k (fuel + 1) = some (Except.error ())) ∧
  (∀ k fuel bytes, env k = ReadResult.frame bytes →
    (bytes.take 3 == sent.take 3) = true →
    recv_loop sent env k (fuel + 1) = some (Except.ok (bytes.drop 4)))

/-- The command sequence and state change of load_config asserted by the
spec: command 1, nine probes, one short probe, command 2, twelve reads
whose 4-byte payloads form the 48-byte blob, dirty flag cleared. -/
def LoadConfigLayout (resp : Nat → List Int) : Prop :=
  (load_config resp).2 =
    [⟨1, [], 0⟩,
     ⟨3, [0, 0, 0, 0], 0⟩, ⟨3, [0, 0, 0, 0], 4⟩, ⟨3, [0, 0, 0, 0], 8⟩,
     ⟨3, [0, 0, 0, 0], 12⟩, ⟨3, [0, 0, 0, 0], 16⟩, ⟨3, [0, 0, 0, 0], 20⟩,
     ⟨3, [0, 0, 0, 0], 24⟩, ⟨3, [0, 0, 0, 0], 28⟩, ⟨3, [0, 0, 0, 0], 32⟩,
     ⟨3, [0], 36⟩, ⟨2, [], 0⟩,
     ⟨5, [0, 0, 0, 0], 0⟩, ⟨5, [0, 0, 0, 0], 4⟩, ⟨5, [0, 0, 0, 0], 8⟩,
     ⟨5, [0, 0, 0, 0], 12⟩, ⟨5, [0, 0, 0, 0], 16⟩, ⟨5, [0, 0, 0, 0], 20⟩,
     ⟨5, [0, 0, 0, 0], 24⟩, ⟨5, [0, 0, 0, 0], 28⟩, ⟨5, [0, 0, 0, 0], 32⟩,
     ⟨5, [0, 0, 0, 0], 36⟩, ⟨5, [0, 0, 0, 0], 40⟩, ⟨5, [0, 0, 0, 0], 44⟩] ∧
  (load_config resp).1.config_needs_update = false ∧
  (load_config resp).1.config =
    (resp 12).drop 4 ++ (resp 13).drop 4 ++ (resp 14).drop 4 ++ (resp 15).drop 4 ++
      (resp 16).drop 4 ++ (resp 17).drop 4 ++ (resp 18).drop 4 ++ (resp 19).drop 4 ++
      (resp 20).drop 4 ++ (resp 21).drop 4 ++ (resp 22).drop 4 ++ (resp 23).drop 4 ∧
  (load_config resp).1.config.length = 48

/-- The frame effects of the three field setters on a loaded 48-byte
blob, as asserted by the spec: each setter touches only its designated
offsets plus the dirty flag and keeps the blob length at 48. -/
def SetterFrameEffects (s : KbState)
    (second minute hour weekday day month year2000 ms fc1 fc2 : Int) : Prop :=
  (∃ cfg : List Int,
    set_datetime second minute hour weekday day month year2000 s =
      Except.ok ⟨cfg, true⟩ ∧
    cfg.length = 48 ∧
    ∀ j, j < 48 → (j < 35 ∨ 41 < j) → cfg[j]! = s.config[j]!) ∧
  ((set_animation_delay ms s).config_needs_update = true ∧
   (set_animation_delay ms s).config.length = 48 ∧
   (∀ j, j < 48 → j ≠ 43 → j ≠ 44 →
     (set_animation_delay ms s).config[j]! = s.config[j]!) ∧
   60 ≤ (set_animation_delay ms s).config[43]! +
       256 * (set_animation_delay ms s).config[44]! ∧
   (set_animation_delay ms s).config[43]! +
       256 * (set_animation_delay ms s).config[44]! = max 60 (min ms 0xffff)) ∧
  ((set_frame_count fc1 fc2 s).config_needs_update = true ∧
   (set_frame_count fc1 fc2 s).config.length = 48 ∧
   ∀ j, j < 48 → j ≠ 34 → j ≠ 46 →
     (set_frame_count fc1 fc2 s).config[j]! = s.config[j]!)

theorem frame_before_checksum_eq (c : Nat) (data : List Nat) (pos : Nat) :
    frame_before_checksum c data pos =
      [0x04, 0, 0, c, data.length, pos % 256, pos / 256 % 256, pos / 65536 % 256] ++
        data ++ List.replicate (56 - data.length) 0 := by
  have hset :
      (((((((List.replicate 64 (0 : Nat)).set 0 0x04).set 3 c).set 4 data.length).set 5
            (pos % 256)).set 6 (pos / 256 % 256)).set 7 (pos / 65536 % 256)) =
        [0x04, 0, 0, c, data.length, pos % 256, pos / 256 % 256, pos / 65536 % 256] ++
          List.replicate 56 0 := rfl
  unfold frame_before_checksum
  dsimp only
  rw [hset]
  rw [List.take_append_of_le_length (by simp)]
  have hdrop :
      ([0x04, 0, 0, c, data.length, pos % 256, pos / 256 % 256, pos / 65536 % 256] ++
          List.replicate 56 (0 : Nat)).drop (8 + data.length) =
        List.replicate (56 - data.length) 0 := by
    have h8 :
        ([0x04, 0, 0, c, data.length, pos % 256, pos / 256 % 256, pos / 65536 % 256] :
            List Nat).length = 8 := by simp
    rw [← h8, List.drop_append, List.drop_replicate]
  rw [hdrop]
  simp [List.take_of_length_le]

theorem send_command_frame_eq (c : Nat) (data : List Nat) (pos : Nat) :
    send_command_frame c data pos =
      [0x04, frame_checksum c data pos % 256, frame_checksum c data pos / 256 % 256,
        c, data.length, pos % 256, pos / 256 % 256, pos / 65536 % 256] ++
        data ++ List.replicate (56 - data.length) 0 := by
  unfold send_command_frame
  dsimp only
  rw [frame_before_checksum_eq c data pos]
  have hsum :
      (([0x04, 0, 0, c, data.length, pos % 256, pos / 256 % 256, pos / 65536 % 256] ++
          data ++ List.replicate (56 - data.length) (0 : Nat)).drop 3).sum =
        frame_checksum c data pos := by
    rw [List.append_assoc, List.drop_append_of_le_length (by simp)]
    show ([c, data.length, pos % 256, pos / 256 % 256, pos / 65536 % 256] ++
        (data ++ List.replicate (56 - data.length) 0)).sum = _
    simp [frame_checksum, List.sum_const_nat, Nat.add_assoc, Nat.add_comm, Nat.add_left_comm]
  rw [hsum, List.append_assoc, List.set_append_left _ _ (by simp),
    List.set_append_left _ _ (by simp), ← List.append_assoc]
  rfl

theorem send_command_frame_drop3_sum (c : Nat) (data : List Nat) (pos : Nat) :
    ((send_command_frame c data pos).drop 3).sum = frame_checksum c data pos := by
  rw [send_command_frame_eq, List.append_assoc, List.drop_append_of_le_length (by simp)]
  show ([c, data.length, pos % 256, pos / 256 % 256, pos / 65536 % 256] ++
      (data ++ List.replicate (56 - data.length) 0)).sum = _
  simp [frame_checksum, List.sum_const_nat, Nat.add_assoc, Nat.add_comm, Nat.add_left_comm]

/-- C1: for every command id in 1..255, payload of at most 56 bytes and
offset below 2^24, send_command builds one 64-byte frame with marker 0x04
at byte 0, the command id at byte 3, the payload length at byte 4, the
offset little-endian at bytes 5-7, the payload at bytes 8.., zeros in all
remaining bytes, and the sum of bytes 3..63 modulo 65536 little-endian at
bytes 1-2. -/
theorem send_command_builds_frame (c : Nat) (p : List Nat) (o : Nat)
    (hc1 : 1 ≤ c) (hc2 : c ≤ 255) (hp : p.length ≤ 56) (ho : o < 2 ^ 24) :
    RequestFrameLayout c p o := by
  have hE := send_command_frame_eq c p o
  refine ⟨?_, ?_, ?_, ?_, ?_, ?_, ?_, ?_, ?_⟩
  · simp only [send_command_ok, Bool.and_eq_true, decide_eq_true_eq]
    exact ⟨⟨hc1, hc2⟩, hp⟩
  · rw [hE]; simp; omega
  · rw [hE]; simp
  · rw [hE]; simp
  · rw [hE]; simp
  · rw [hE]; simp
    omega
  · intro i hi
    rw [hE, show 8 + i = i + 1 + 1 + 1 + 1 + 1 + 1 + 1 + 1 by omega]
    simp only [List.cons_append, List.getElem!_cons_succ, List.nil_append]
    have hb : i < (p ++ List.replicate (56 - p.length) (0 : Nat)).length := by
      simp; omega
    rw [getElem!_pos (p ++ List.replicate (56 - p.length) 0) i hb,
      getElem!_pos p i hi, List.getElem_append_left hi]
  · intro j hj1 hj2
    rw [hE]
    have hb : j < (([0x04, frame_checksum c p o % 256, frame_checksum c p o / 256 % 256,
        c, p.length, o % 256, o / 256 % 256, o / 65536 % 256] ++ p) ++
          List.replicate (56 - p.length) (0 : Nat)).length := by
      simp; omega
    rw [getElem!_pos ([0x04, frame_checksum c p o % 256, frame_checksum c p o / 256 % 256,
        c, p.length, o % 256, o / 256 % 256, o / 65536 % 256] ++ p ++
          List.replicate (56 - p.length) 0) j hb,
      List.getElem_append_right (by simp; omega)]
    simp
  · rw [send_command_frame_drop3_sum, hE]
    simp only [List.cons_append, List.getElem!_cons_succ, List.getElem!_cons_zero]
    omega

theorem send_command_builds_frame_witness :
    (1 ≤ 0x21 ∧ 0x21 ≤ 255 ∧ ([1, 2, 3] : List Nat).length ≤ 56 ∧ 0x010203 < 2 ^ 24) ∧
      RequestFrameLayout 0x21 [1, 2, 3] 0x010203 :=
  ⟨by decide,
    send_command_builds_frame 0x21 [1, 2, 3] 0x010203 (by decide) (by decide)
      (by decide) (by decide)⟩

theorem encode_bytes_length (pixels : List (Nat × Nat × Nat)) :
    (encode_bytes pixels).length = 2 * pixels.length := by
  induction pixels with
  | nil => rfl
  | cons pixel rest ih => simp [encode_bytes, ih]; omega

theorem encode_loop_length (pixels : List (Nat × Nat × Nat)) :
    ∀ (buffer : List Nat) (idx : Nat),
      (encode_loop buffer pixels idx).length = buffer.length := by
  induction pixels with
  | nil => intro buffer idx; rfl
  | cons pixel rest ih => intro buffer idx; simp [encode_loop, ih]

theorem encode_loop_getElem? (pixels : List (Nat × Nat × Nat)) :
    ∀ (buffer : List Nat) (idx j : Nat), 2 * (idx + pixels.length) ≤ buffer.length →
      (encode_loop buffer pixels idx)[j]? =
        if 2 * idx ≤ j ∧ j < 2 * idx + 2 * pixels.length then
          (encode_bytes pixels)[j - 2 * idx]?
        else buffer[j]? := by
  induction pixels with
  | nil =>
    intro buffer idx j hlen
    rw [show encode_loop buffer [] idx = buffer from rfl,
      if_neg (by simp only [List.length_nil]; omega)]
  | cons pixel rest ih =>
    intro buffer idx j hlen
    simp only [List.length_cons] at hlen
    rw [show encode_loop buffer (pixel :: rest) idx =
        encode_loop
          ((buffer.set (idx * 2) ((rgb565 pixel >>> 8) &&& 0xff)).set (idx * 2 + 1)
            (rgb565 pixel &&& 0xff)) rest (idx + 1) from rfl]
    rw [Nat.mul_comm idx 2]
    rw [ih _ (idx + 1) j (by simp only [List.length_set]; omega)]
    simp only [List.length_cons]
    by_cases hcase : 2 * (idx + 1) ≤ j ∧ j < 2 * (idx + 1) + 2 * rest.length
    · rw [if_pos hcase, if_pos (by omega)]
      rw [show j - 2 * idx = j - 2 * (idx + 1) + 1 + 1 by omega]
      simp [encode_bytes]
    · rw [if_neg hcase]
      by_cases h0 : j = 2 * idx
      · subst h0
        rw [if_pos (by omega)]
        rw [List.getElem?_set_ne (by omega), List.getElem?_set_self (by omega),
          Nat.sub_self]
        simp [encode_bytes]
      · by_cases h1 : j = 2 * idx + 1
        · subst h1
          rw [if_pos (by omega)]
          rw [List.getElem?_set_self (by simp only [List.length_set]; omega),
            show 2 * idx + 1 - 2 * idx = 1 by omega]
          simp [encode_bytes]
        · rw [if_neg (by omega)]
          rw [List.getElem?_set_ne (by omega), List.getElem?_set_ne (by omega)]

theorem rgb565_eq_arith (p : Nat × Nat × Nat) :
    rgb565 p = p.1 / 8 % 32 * 2048 + p.2.1 / 4 % 64 * 32 + p.2.2 / 8 % 32 := by
  unfold rgb565
  dsimp only
  rw [Nat.shiftRight_eq_div_pow, Nat.shiftRight_eq_div_pow, Nat.shiftRight_eq_div_pow,
    show (0x1F : Nat) = 2 ^ 5 - 1 from rfl, show (0x3F : Nat) = 2 ^ 6 - 1 from rfl,
    Nat.and_pow_two_sub_one_eq_mod, Nat.and_pow_two_sub_one_eq_mod,
    Nat.and_pow_two_sub_one_eq_mod, Nat.shiftLeft_eq, Nat.shiftLeft_eq,
    Nat.mul_comm (p.1 / 2 ^ 3 % 2 ^ 5) (2 ^ 11), Nat.mul_comm (p.2.1 / 2 ^ 2 % 2 ^ 6) (2 ^ 5)]
  have hg : 2 ^ 5 * (p.2.1 / 2 ^ 2 % 2 ^ 6) < 2 ^ 11 := by
    have := Nat.mod_lt (p.2.1 / 2 ^ 2) (y := 2 ^ 6) (by norm_num)
    norm_num at this ⊢
    omega
  have hb : p.2.2 / 2 ^ 3 % 2 ^ 5 < 2 ^ 5 := Nat.mod_lt _ (by norm_num)
  rw [← Nat.mul_add_lt_is_or hg (p.1 / 2 ^ 3 % 2 ^ 5),
    show 2 ^ 11 * (p.1 / 2 ^ 3 % 2 ^ 5) + 2 ^ 5 * (p.2.1 / 2 ^ 2 % 2 ^ 6) =
      2 ^ 5 * (2 ^ 6 * (p.1 / 2 ^ 3 % 2 ^ 5) + p.2.1 / 2 ^ 2 % 2 ^ 6) by ring,
    ← Nat.mul_add_lt_is_or hb _]
  norm_num

theorem rgb565_lt (p : Nat × Nat × Nat) : rgb565 p < 65536 := by
  rw [rgb565_eq_arith]
  omega

theorem rgb565_of_bytes (p : Nat × Nat × Nat)
    (h1 : p.1 < 256) (h2 : p.2.1 < 256) (h3 : p.2.2 < 256) :
    (p.1 >>> 3) <<< 11 ||| (p.2.1 >>> 2) <<< 5 ||| p.2.2 >>> 3 = rgb565 p := by
  unfold rgb565
  dsimp only
  rw [show (0x1F : Nat) = 2 ^ 5 - 1 from rfl, show (0x3F : Nat) = 2 ^ 6 - 1 from rfl,
    Nat.and_pow_two_sub_one_of_lt_two_pow (x := p.1 >>> 3)
      (by rw [Nat.shiftRight_eq_div_pow]; norm_num; omega),
    Nat.and_pow_two_sub_one_of_lt_two_pow (x := p.2.1 >>> 2)
      (by rw [Nat.shiftRight_eq_div_pow]; norm_num; omega),
    Nat.and_pow_two_sub_one_of_lt_two_pow (x := p.2.2 >>> 3)
      (by rw [Nat.shiftRight_eq_div_pow]; norm_num; omega)]

theorem hi_byte_eq (v : Nat) : (v >>> 8) &&& 0xff = v / 256 % 256 := by
  rw [Nat.shiftRight_eq_div_pow, show (0xff : Nat) = 2 ^ 8 - 1 from rfl,
    Nat.and_pow_two_sub_one_eq_mod]

theorem lo_byte_eq (v : Nat) : v &&& 0xff = v % 256 := by
  rw [show (0xff : Nat) = 2 ^ 8 - 1 from rfl, Nat.and_pow_two_sub_one_eq_mod]

theorem encode_bytes_getElem? (pixels : List (Nat × Nat × Nat)) :
    ∀ i, i < pixels.length →
      (encode_bytes pixels)[2 * i]? = some ((rgb565 pixels[i]! >>> 8) &&& 0xff) ∧
      (encode_bytes pixels)[2 * i + 1]? = some (rgb565 pixels[i]! &&& 0xff) := by
  induction pixels with
  | nil => intro i hi; simp at hi
  | cons pixel rest ih =>
    intro i hi
    cases i with
    | zero => simp [encode_bytes]
    | succ i =>
      rw [show 2 * (i + 1) = 2 * i + 1 + 1 by omega]
      simp only [encode_bytes, List.getElem?_cons_succ, List.getElem!_cons_succ]
      exact ih i (by simp at hi; omega)

theorem encode_frame_length (frame : List (Nat × Nat × Nat)) :
    (encode_frame frame).length = frame_size := by
  unfold encode_frame
  rw [encode_loop_length]
  simp

/-- C2: for a frame of exactly 240*135 byte-valued RGB triples,
encode_frame returns a buffer of ceil(240*135*2 / 0x8000) * 0x8000 bytes
(a multiple of 32 KiB) holding, for pixel i, the high byte of
(r>>3)<<11 | (g>>2)<<5 | (b>>3) at index 2i and the low byte at 2i+1, with
every byte from 2*240*135 on equal to zero. -/
theorem encode_frame_spec (frame : List (Nat × Nat × Nat))
    (hlen : frame.length = DISPLAY_WIDTH * DISPLAY_HEIGHT)
    (hpix : ∀ p ∈ frame, p.1 < 256 ∧ p.2.1 < 256 ∧ p.2.2 < 256) :
    EncodedFrameLayout frame := by
  have hfs : frame_size = 65536 := by norm_num [frame_size, DISPLAY_WIDTH, DISPLAY_HEIGHT]
  have hWH : DISPLAY_WIDTH * DISPLAY_HEIGHT = 32400 := by
    norm_num [DISPLAY_WIDTH, DISPLAY_HEIGHT]
  have hE := encode_frame_length frame
  have hchar : ∀ j, (encode_frame frame)[j]? =
      if 2 * 0 ≤ j ∧ j < 2 * 0 + 2 * frame.length then (encode_bytes frame)[j - 2 * 0]?
      else (List.replicate frame_size 0)[j]? := by
    intro j
    exact encode_loop_getElem? frame (List.replicate frame_size 0) 0 j
      (by simp only [List.length_replicate, Nat.zero_add]; rw [hlen, hfs, hWH]; omega)
  refine ⟨?_, ?_, ?_, ?_⟩
  · rw [hE, hfs]; norm_num [DISPLAY_WIDTH, DISPLAY_HEIGHT]
  · rw [hE, hfs]
  · intro i hi
    have hf32 : frame.length = 32400 := by rw [hlen, hWH]
    have hib : frame[i]! = frame[i] := getElem!_pos frame i hi
    have hmem : frame[i]! ∈ frame := by rw [hib]; exact List.getElem_mem hi
    have hpb := hpix frame[i]! hmem
    have hv := rgb565_lt frame[i]!
    have hbytes := encode_bytes_getElem? frame i hi
    have hb1 : 2 * i < (encode_frame frame).length := by rw [hE, hfs]; omega
    have hb2 : 2 * i + 1 < (encode_frame frame).length := by rw [hE, hfs]; omega
    have e1 : (encode_frame frame)[2 * i] = (rgb565 frame[i]! >>> 8) &&& 0xff := by
      have h := hchar (2 * i)
      rw [if_pos (by omega), show 2 * i - 2 * 0 = 2 * i by omega, hbytes.1,
        List.getElem?_eq_getElem hb1] at h
      exact Option.some_inj.mp h
    have e2 : (encode_frame frame)[2 * i + 1] = rgb565 frame[i]! &&& 0xff := by
      have h := hchar (2 * i + 1)
      rw [if_pos (by omega), show 2 * i + 1 - 2 * 0 = 2 * i + 1 by omega, hbytes.2,
        List.getElem?_eq_getElem hb2] at h
      exact Option.some_inj.mp h
    constructor
    · rw [getElem!_pos (encode_frame frame) (2 * i) hb1, e1, hi_byte_eq,
        rgb565_of_bytes _ hpb.1 hpb.2.1 hpb.2.2]
      omega
    · rw [getElem!_pos (encode_frame frame) (2 * i + 1) hb2, e2, lo_byte_eq,
        rgb565_of_bytes _ hpb.1 hpb.2.1 hpb.2.2]
  · intro j hj1 hj2
    have hj2' : j < frame_size := by rw [hE] at hj2; exact hj2
    have hz : (encode_frame frame)[j]? = some 0 := by
      rw [hchar j, if_neg (by omega)]
      rw [List.getElem?_replicate_of_lt hj2']
    rw [List.getElem?_eq_getElem hj2] at hz
    rw [getElem!_pos (encode_frame frame) j hj2]
    exact Option.some_inj.mp hz

/-- C6 as stated is false at pixel (8,4,8): the encoder truncates sub-
precision bits, so (8,4,8) keeps r=8>>3=1, g=4>>2=1, b=8>>3=1 and encodes
to 0x0821, not 0x0000. -/
theorem rgb565_sample_values_counterexample :
    ¬(rgb565 (255, 255, 255) = 0xFFFF ∧ rgb565 (0, 0, 0) = 0x0000 ∧
      rgb565 (8, 4, 8) = 0x0000) := by
  decide

/-- C6 amended: the frame encoder maps (255,255,255) to 0xFFFF, (0,0,0) to
0x0000, and (8,4,8) to 0x0821; bits below the retained precision are
dropped, not rounded, as witnessed by (7,3,7) mapping to 0x0000. -/
theorem rgb565_sample_values :
    rgb565 (255, 255, 255) = 0xFFFF ∧ rgb565 (0, 0, 0) = 0x0000 ∧
      rgb565 (8, 4, 8) = 0x0821 ∧ rgb565 (7, 3, 7) = 0x0000 := by
  decide

theorem encode_frame_spec_witness :
    ((List.replicate 32400 ((0 : Nat), (0 : Nat), (0 : Nat))).length =
        DISPLAY_WIDTH * DISPLAY_HEIGHT ∧
      ∀ p ∈ List.replicate 32400 ((0 : Nat), (0 : Nat), (0 : Nat)),
        p.1 < 256 ∧ p.2.1 < 256 ∧ p.2.2 < 256) ∧
    EncodedFrameLayout (List.replicate 32400 (0, 0, 0)) :=
  ⟨⟨by rw [List.length_replicate]; decide,
    fun p hp => by rw [List.eq_of_mem_replicate hp]; exact ⟨by norm_num, by norm_num, by norm_num⟩⟩,
    encode_frame_spec _ (by rw [List.length_replicate]; decide)
      (fun p hp => by
        rw [List.eq_of_mem_replicate hp]
        exact ⟨by norm_num, by norm_num, by norm_num⟩)⟩

theorem chunk_loop_spec (data : List Nat) :
    ∀ d pos, data.length - pos ≤ d →
      (chunk_loop data pos).length = (data.length - pos + 55) / 56 ∧
      ∀ k, k < (chunk_loop data pos).length →
        (chunk_loop data pos)[k]! =
          ⟨0x21, (data.drop (pos + 56 * k)).take (min 56 (data.length - (pos + 56 * k))),
            pos + 56 * k⟩ := by
  intro d
  induction d with
  | zero =>
    intro pos h
    rw [chunk_loop, dif_neg (by omega)]
    refine ⟨by simp; omega, ?_⟩
    intro k hk
    simp at hk
  | succ d ih =>
    intro pos h
    by_cases hp : pos < data.length
    · have ihs := ih (pos + min 56 (data.length - pos)) (by omega)
      rw [chunk_loop, dif_pos hp]
      dsimp only
      constructor
      · simp only [List.length_cons, ihs.1]
        omega
      · intro k hk
        simp only [List.length_cons, ihs.1] at hk
        cases k with
        | zero =>
          simp only [List.getElem!_cons_zero, Nat.mul_zero, Nat.add_zero]
        | succ k =>
          have hgt : 56 < data.length - pos := by omega
          have hmin : min 56 (data.length - pos) = 56 := by omega
          rw [hmin] at ihs
          rw [List.getElem!_cons_succ, hmin, ihs.2 k (by rw [ihs.1]; omega)]
          rw [show pos + 56 + 56 * k = pos + 56 * (k + 1) by ring]
    · rw [chunk_loop, dif_neg hp]
      refine ⟨by simp; omega, ?_⟩
      intro k hk
      simp at hk

theorem encoded_stream_length (frames : List (List (Nat × Nat × Nat))) :
    ((frames.map encode_frame).flatten).length = frames.length * 65536 := by
  induction frames with
  | nil => simp
  | cons f rest ih =>
    simp only [List.map_cons, List.flatten_cons, List.length_append, ih,
      encode_frame_length, List.length_cons]
    have : frame_size = 65536 := by norm_num [frame_size, DISPLAY_WIDTH, DISPLAY_HEIGHT]
    omega

/-- C3: upload_frames concatenates the slot A encodings then the slot B
encodings into one stream of (nA+nB)*65536 bytes, splits it into
ceil(len/56) chunks of 56 bytes each except a possibly shorter final chunk
of len mod 56 bytes, sends every chunk as command 0x21 with the chunk's
absolute cumulative stream offset, and brackets the chunks with commands
0x23 and 1 before and command 2 after. -/
theorem upload_frames_spec (first second : List (List (Nat × Nat × Nat)))
    (hfr : ∀ f ∈ first ++ second, f.length = DISPLAY_WIDTH * DISPLAY_HEIGHT) :
    UploadTraceLayout first second := by
  clear hfr
  dsimp only [UploadTraceLayout]
  set data := (first.map encode_frame).flatten ++ (second.map encode_frame).flatten with hdata
  have hdl : data.length = (first.length + second.length) * 65536 := by
    rw [hdata, List.length_append, encoded_stream_length, encoded_stream_length]
    ring
  have hcl := chunk_loop_spec data data.length 0 (by omega)
  simp only [Nat.sub_zero] at hcl
  refine ⟨hdl, rfl, hcl.1, ?_, ?_⟩
  · intro k hk
    have hel := hcl.2 k hk
    have hbound : 56 * k < data.length := by
      rw [hcl.1] at hk
      omega
    rw [hel]
    dsimp only
    simp only [Nat.zero_add]
    refine ⟨trivial, trivial, ?_, ?_, ?_⟩
    · rw [List.take_eq_take]
      simp only [List.length_drop]
      omega
    · simp only [List.length_take, List.length_drop]
      omega
    · intro hk1
      rw [hcl.1] at hk1
      simp only [List.length_take, List.length_drop]
      omega
  · intro hpos
    have hk : (chunk_loop data 0).length - 1 < (chunk_loop data 0).length := by
      rw [hcl.1]
      omega
    have hel := hcl.2 _ hk
    rw [hel]
    dsimp only
    simp only [List.length_take, List.length_drop, hcl.1]
    rcases Nat.eq_zero_or_pos (data.length % 56) with hz | hnz
    · rw [if_pos hz]
      omega
    · rw [if_neg (by omega)]
      omega

theorem upload_frames_spec_witness :
    (∀ f ∈ [List.replicate 32400 ((0 : Nat), (0 : Nat), (0 : Nat))] ++
        [List.replicate 32400 ((0 : Nat), (0 : Nat), (0 : Nat))],
      f.length = DISPLAY_WIDTH * DISPLAY_HEIGHT) ∧
    UploadTraceLayout [List.replicate 32400 (0, 0, 0)] [List.replicate 32400 (0, 0, 0)] :=
  ⟨fun f hf => by
      simp only [List.cons_append, List.nil_append, List.mem_cons,
        List.not_mem_nil, or_false] at hf
      rcases hf with h | h <;>
        (rw [h, List.length_replicate]; decide),
    upload_frames_spec _ _ (fun f hf => by
      simp only [List.cons_append, List.nil_append, List.mem_cons,
        List.not_mem_nil, or_false] at hf
      rcases hf with h | h <;>
        (rw [h, List.length_replicate]; decide))⟩

theorem set_getElem!_ne {α : Type} [Inhabited α] (l : List α) (m j : Nat) (a : α)
    (hj : j < l.length) (hne : m ≠ j) : (l.set m a)[j]! = l[j]! := by
  rw [getElem!_pos (l.set m a) j (by rw [List.length_set]; exact hj),
    getElem!_pos l j hj]
  exact List.getElem_set_ne hne (by rw [List.length_set]; exact hj)

theorem set_getElem!_self {α : Type} [Inhabited α] (l : List α) (m : Nat) (a : α)
    (hm : m < l.length) : (l.set m a)[m]! = a := by
  rw [getElem!_pos (l.set m a) m (by rw [List.length_set]; exact hm)]
  exact List.getElem_set_self _

theorem int_to_bcd_ok_of_range (n : Int) (h1 : 0 ≤ n) (h2 : n ≤ 99) :
    _int_to_bcd n = Except.ok ((n.toNat / 10) <<< 4 ||| n.toNat % 10) := by
  unfold _int_to_bcd
  rw [if_neg (by push_neg; exact ⟨h1, h2⟩)]

theorem int_to_bcd_error_of_not_range (n : Int) (h : n < 0 ∨ 99 < n) :
    _int_to_bcd n = Except.error "Input for BCD conversion must be between 0 and 99" := by
  unfold _int_to_bcd
  rw [if_pos (by omega)]

/-- C4: load_config issues exactly command 1, nine probes (id 3, 4-byte
zero payload, offsets 0,4,...,32), one probe (id 3, 1-byte zero payload,
offset 36), command 2, then twelve reads (id 5, 4-byte zero payload,
offsets 0,4,...,44) whose 4-byte response payloads are concatenated into
the 48-byte configuration blob, and it clears the dirty flag. -/
theorem load_config_spec (resp : Nat → List Int) (hresp : ∀ k, (resp k).length = 8) :
    LoadConfigLayout resp := by
  have h4 : ∀ k, ((resp k).drop 4).length = 4 := fun k => by
    rw [List.length_drop, hresp]
  have hcfg : (load_config resp).1.config =
      (resp 12).drop 4 ++ (resp 13).drop 4 ++ (resp 14).drop 4 ++ (resp 15).drop 4 ++
        (resp 16).drop 4 ++ (resp 17).drop 4 ++ (resp 18).drop 4 ++ (resp 19).drop 4 ++
        (resp 20).drop 4 ++ (resp 21).drop 4 ++ (resp 22).drop 4 ++ (resp 23).drop 4 := by
    show (List.range 12).foldl (fun buf i => buf ++ (resp (12 + i)).drop 4) [] = _
    rw [show List.range 12 = [0, 1, 2, 3, 4, 5, 6, 7, 8, 9, 10, 11] from rfl]
    simp only [List.foldl_cons, List.foldl_nil, List.nil_append]
  refine ⟨rfl, rfl, hcfg, ?_⟩
  rw [hcfg]
  simp only [List.length_append, h4]

theorem load_config_spec_witness :
    (∀ k : Nat, ((fun _ => List.replicate 8 (0 : Int)) k : List Int).length = 8) ∧
      LoadConfigLayout (fun _ => List.replicate 8 0) :=
  ⟨fun _ => by rw [List.length_replicate],
    load_config_spec _ (fun _ => by rw [List.length_replicate])⟩

/-- C5: update_config is a no-op when the dirty flag is clear (no commands
issued, state unchanged); when the flag is set it issues exactly command 1,
command 6 carrying the full blob, command 2, and clears the flag, so a
second consecutive call issues no commands. -/
theorem update_config_spec (cfg : List Int) :
    update_config ⟨cfg, false⟩ = (⟨cfg, false⟩, []) ∧
    update_config ⟨cfg, true⟩ =
      (⟨cfg, false⟩, [⟨1, [], 0⟩, ⟨6, cfg, 0⟩, ⟨2, [], 0⟩]) ∧
    ∀ s : KbState, (update_config (update_config s).1).2 = [] := by
  refine ⟨rfl, rfl, ?_⟩
  intro s
  rcases s with ⟨cfg2, b⟩
  cases b <;> rfl

/-- C7: the BCD encoder returns (n div 10)<<4 | (n mod 10) for every
0 <= n <= 99 (0 to 0x00, 59 to 0x59, 99 to 0x99) and fails with ValueError
for every n outside that range, in particular 100 and -1; it succeeds if
and only if n is in range. -/
theorem int_to_bcd_spec :
    (∀ n : Int, 0 ≤ n → n ≤ 99 →
      _int_to_bcd n = Except.ok ((n.toNat / 10) <<< 4 ||| n.toNat % 10)) ∧
    _int_to_bcd 0 = Except.ok 0x00 ∧
    _int_to_bcd 59 = Except.ok 0x59 ∧
    _int_to_bcd 99 = Except.ok 0x99 ∧
    (∀ n : Int, n < 0 ∨ 99 < n →
      _int_to_bcd n = Except.error "Input for BCD conversion must be between 0 and 99") ∧
    _int_to_bcd 100 = Except.error "Input for BCD conversion must be between 0 and 99" ∧
    _int_to_bcd (-1) = Except.error "Input for BCD conversion must be between 0 and 99" ∧
    (∀ n : Int, (∃ b, _int_to_bcd n = Except.ok b) ↔ 0 ≤ n ∧ n ≤ 99) := by
  refine ⟨int_to_bcd_ok_of_range, rfl, rfl, rfl,
    int_to_bcd_error_of_not_range, rfl, rfl, ?_⟩
  intro n
  constructor
  · rintro ⟨b, hb⟩
    by_contra hcon
    rw [int_to_bcd_error_of_not_range n (by omega)] at hb
    exact Except.noConfusion hb
  · rintro ⟨h1, h2⟩
    exact ⟨_, int_to_bcd_ok_of_range n h1 h2⟩

theorem int_to_bcd_spec_witness :
    (0 ≤ (59 : Int) ∧ (59 : Int) ≤ 99) ∧
      _int_to_bcd 59 = Except.ok (((59 : Int).toNat / 10) <<< 4 ||| (59 : Int).toNat % 10) :=
  ⟨by decide, int_to_bcd_spec.1 59 (by decide) (by decide)⟩

/-- C8: on a loaded 48-byte blob each setter mutates only its designated
bytes plus the dirty flag: set_datetime the 7 bytes at offsets 35-41,
set_animation_delay the 2 bytes at 43-44 (the argument clamped into
[60, 65535] and stored little-endian), set_frame_count the single bytes at
34 and 46; every other byte and the blob length stay unchanged. -/
theorem setters_frame_effects (s : KbState) (h48 : s.config.length = 48)
    (second minute hour weekday day month year2000 ms fc1 fc2 : Int)
    (hsec : 0 ≤ second ∧ second ≤ 99) (hmin : 0 ≤ minute ∧ minute ≤ 99)
    (hhr : 0 ≤ hour ∧ hour ≤ 99) (hday : 0 ≤ day ∧ day ≤ 99)
    (hmon : 0 ≤ month ∧ month ≤ 99) (hyr : 0 ≤ year2000 ∧ year2000 ≤ 99) :
    SetterFrameEffects s second minute hour weekday day month year2000 ms fc1 fc2 := by
  refine ⟨?_, ?_, ?_⟩
  · have e0 := int_to_bcd_ok_of_range second hsec.1 hsec.2
    have e1 := int_to_bcd_ok_of_range minute hmin.1 hmin.2
    have e2 := int_to_bcd_ok_of_range hour hhr.1 hhr.2
    have e4 := int_to_bcd_ok_of_range day hday.1 hday.2
    have e5 := int_to_bcd_ok_of_range month hmon.1 hmon.2
    have e6 := int_to_bcd_ok_of_range year2000 hyr.1 hyr.2
    refine ⟨((((((s.config.set 35 (((second.toNat / 10) <<< 4 ||| second.toNat % 10 : Nat) :
        Int)).set 36 (((minute.toNat / 10) <<< 4 ||| minute.toNat % 10 : Nat) : Int)).set 37
        (((hour.toNat / 10) <<< 4 ||| hour.toNat % 10 : Nat) : Int)).set 38 weekday).set 39
        (((day.toNat / 10) <<< 4 ||| day.toNat % 10 : Nat) : Int)).set 40
        (((month.toNat / 10) <<< 4 ||| month.toNat % 10 : Nat) : Int)).set 41
        (((year2000.toNat / 10) <<< 4 ||| year2000.toNat % 10 : Nat) : Int), ?_, ?_, ?_⟩
    · unfold set_datetime
      rw [e0, e1, e2, e4, e5, e6]
      rfl
    · simp only [List.length_set]
      exact h48
    · intro j hj hrange
      rw [set_getElem!_ne _ _ _ _ (by simp only [List.length_set]; omega) (by omega),
        set_getElem!_ne _ _ _ _ (by simp only [List.length_set]; omega) (by omega),
        set_getElem!_ne _ _ _ _ (by simp only [List.length_set]; omega) (by omega),
        set_getElem!_ne _ _ _ _ (by simp only [List.length_set]; omega) (by omega),
        set_getElem!_ne _ _ _ _ (by simp only [List.length_set]; omega) (by omega),
        set_getElem!_ne _ _ _ _ (by simp only [List.length_set]; omega) (by omega),
        set_getElem!_ne _ _ _ _ (by omega) (by omega)]
  · have hM1 : 60 ≤ max 60 (min ms 0xffff) := by omega
    have hM2 : max 60 (min ms 0xffff) ≤ 0xffff := by omega
    unfold set_animation_delay
    dsimp only
    refine ⟨rfl, by simp only [List.length_set]; exact h48, ?_, ?_, ?_⟩
    · intro j hj h43 h44
      rw [set_getElem!_ne _ _ _ _ (by simp only [List.length_set]; omega)
          (by simp only [DELAY_OFFSET]; omega),
        set_getElem!_ne _ _ _ _ (by omega) (by simp only [DELAY_OFFSET]; omega)]
    · rw [show DELAY_OFFSET + 1 = 44 from rfl, show DELAY_OFFSET = 43 from rfl,
        set_getElem!_ne _ _ _ _ (by simp only [List.length_set]; omega) (by omega),
        set_getElem!_self _ _ _ (by omega),
        set_getElem!_self _ _ _ (by simp only [List.length_set]; omega)]
      omega
    · rw [show DELAY_OFFSET + 1 = 44 from rfl, show DELAY_OFFSET = 43 from rfl,
        set_getElem!_ne _ _ _ _ (by simp only [List.length_set]; omega) (by omega),
        set_getElem!_self _ _ _ (by omega),
        set_getElem!_self _ _ _ (by simp only [List.length_set]; omega)]
      omega
  · unfold set_frame_count
    dsimp only
    refine ⟨rfl, by simp only [List.length_set]; exact h48, ?_⟩
    intro j hj h34 h46
    rw [set_getElem!_ne _ _ _ _ (by simp only [List.length_set]; omega)
        (by simp only [FRAMES_2_OFFSET]; omega),
      set_getElem!_ne _ _ _ _ (by omega) (by simp only [FRAMES_1_OFFSET]; omega)]

theorem setters_frame_effects_witness :
    ((⟨List.replicate 48 0, false⟩ : KbState).config.length = 48 ∧
      (0 ≤ (30 : Int) ∧ (30 : Int) ≤ 99) ∧ (0 ≤ (15 : Int) ∧ (15 : Int) ≤ 99) ∧
      (0 ≤ (12 : Int) ∧ (12 : Int) ≤ 99) ∧ (0 ≤ (24 : Int) ∧ (24 : Int) ≤ 99) ∧
      (0 ≤ (10 : Int) ∧ (10 : Int) ≤ 99) ∧ (0 ≤ (25 : Int) ∧ (25 : Int) ≤ 99)) ∧
      SetterFrameEffects ⟨List.replicate 48 0, false⟩ 30 15 12 3 24 10 25 1000 3 4 :=
  ⟨⟨by rw [List.length_replicate], by decide, by decide, by decide, by decide,
      by decide, by decide⟩,
    setters_frame_effects ⟨List.replicate 48 0, false⟩ (by rw [List.length_replicate])
      30 15 12 3 24 10 25 1000 3 4 (by decide) (by decide) (by decide) (by decide)
      (by decide) (by decide)⟩

/-- C9: in the reception phase of send_command every read has its own
timeout window; the discard loop stops at the first read that either
times out (surfacing a DeviceTimeout failure immediately) or echoes the
request header (returning its payload), so whenever some read stops the
loop, a finite iteration budget suffices and the loop terminates. -/
theorem recv_loop_terminates (sent : List Nat) (env : Nat → ReadResult)
    (h : ∃ n, recv_stop sent (env n) = true) : RecvLoopTerminates sent env := by
  have key : ∀ d k, recv_stop sent (env (k + d)) = true →
      ∃ r, recv_loop sent env k (d + 1) = some r := by
    intro d
    induction d with
    | zero =>
      intro k hk
      rw [Nat.add_zero] at hk
      cases he : env k with
      | timeout => exact ⟨Except.error (), by simp [recv_loop, he]⟩
      | frame bytes =>
        rw [he] at hk
        simp only [recv_stop] at hk
        exact ⟨Except.ok (bytes.drop 4), by simp [recv_loop, he, hk]⟩
    | succ d ih =>
      intro k hk
      cases he : env k with
      | timeout => exact ⟨Except.error (), by simp [recv_loop, he]⟩
      | frame bytes =>
        by_cases hm : (bytes.take 3 == sent.take 3) = true
        · exact ⟨Except.ok (bytes.drop 4), by simp [recv_loop, he, hm]⟩
        · obtain ⟨r, hr⟩ := ih (k + 1) (by rw [show k + 1 + d = k + (d + 1) by omega]; exact hk)
          refine ⟨r, ?_⟩
          rw [show recv_loop sent env k (d + 1 + 1) =
              match env k with
              | ReadResult.timeout => some (Except.error ())
              | ReadResult.frame bytes =>
                if bytes.take 3 == sent.take 3 then some (Except.ok (bytes.drop 4))
                else recv_loop sent env (k + 1) (d + 1) from rfl,
            he]
          dsimp only
          rw [if_neg hm]
          exact hr
  obtain ⟨n, hn⟩ := h
  obtain ⟨r, hr⟩ := key n 0 (by rw [Nat.zero_add]; exact hn)
  refine ⟨⟨n + 1, r, hr⟩, ?_, ?_⟩
  · intro k fuel he
    simp [recv_loop, he]
  · intro k fuel bytes he hm
    simp [recv_loop, he, hm]

theorem recv_loop_terminates_witness :
    (∃ n, recv_stop [] ((fun _ : Nat => ReadResult.timeout) n) = true) ∧
      RecvLoopTerminates [] (fun _ : Nat => ReadResult.timeout) :=
  ⟨⟨0, rfl⟩, recv_loop_terminates [] (fun _ : Nat => ReadResult.timeout) ⟨0, rfl⟩⟩

/-- C10: set_frame_count performs no validation and never fails: for all
integer arguments, including negative values and values above 255, it
stores both verbatim at blob offsets 34 and 46 and marks the store dirty;
neither the 90-frame limit nor the byte range is enforced here. -/
theorem set_frame_count_no_validation (s : KbState) (h48 : s.config.length = 48)
    (a b : Int) :
    set_frame_count a b s = ⟨(s.config.set 34 a).set 46 b, true⟩ ∧
    (set_frame_count a b s).config[34]! = a ∧
    (set_frame_count a b s).config[46]! = b ∧
    (set_frame_count a b s).config_needs_update = true ∧
    (set_frame_count a b s).config.length = 48 := by
  refine ⟨rfl, ?_, ?_, rfl, by simp only [set_frame_count, List.length_set]; exact h48⟩
  · show ((s.config.set FRAMES_1_OFFSET a).set FRAMES_2_OFFSET b)[34]! = a
    rw [show FRAMES_2_OFFSET = 46 from rfl, show FRAMES_1_OFFSET = 34 from rfl,
      set_getElem!_ne _ _ _ _ (by simp only [List.length_set]; omega) (by omega),
      set_getElem!_self _ _ _ (by omega)]
  · show ((s.config.set FRAMES_1_OFFSET a).set FRAMES_2_OFFSET b)[46]! = b
    rw [show FRAMES_2_OFFSET = 46 from rfl,
      set_getElem!_self _ _ _ (by simp only [List.length_set]; omega)]

theorem set_frame_count_no_validation_witness :
    ((⟨List.replicate 48 0, false⟩ : KbState).config.length = 48) ∧
      (set_frame_count (-5) 300 ⟨List.replicate 48 0, false⟩ =
          ⟨((List.replicate 48 0 : List Int).set 34 (-5)).set 46 300, true⟩ ∧
        (set_frame_count (-5) 300 ⟨List.replicate 48 0, false⟩).config[34]! = -5 ∧
        (set_frame_count (-5) 300 ⟨List.replicate 48 0, false⟩).config[46]! = 300 ∧
        (set_frame_count (-5) 300
            ⟨List.replicate 48 0, false⟩).config_needs_update = true ∧
        (set_frame_count (-5) 300 ⟨List.replicate 48 0, false⟩).config.length = 48) :=
  ⟨by rw [List.length_replicate],
    set_frame_count_no_validation ⟨List.replicate 48 0, false⟩
      (by rw [List.length_replicate]) (-5) 300⟩

end GMK87
